import Mathlib

/-!
Verification of the tunnel-manager / SQL-gateway server (src/Server.js).

The JavaScript source is shallowly embedded: pure string processing becomes
functions on `List Char` / `String`; the event-driven lifecycle code becomes
explicit state records plus step functions over oracle inputs (outcomes of
external commands, port-probe results, subprocess events), and every
externally observable effect (HTTP responses, SSE broadcasts, subprocess
launches) is recorded in lists carried through the state.
-/

namespace Server

/-! ### SQL Safety Validator (isSafeSelectQuery, Server.js lines 105-126) -/

/-- Whitespace as used by the regex class and by trim in the source
(ASCII whitespace plus NBSP and BOM). -/
def isJsWhitespace (c : Char) : Bool :=
  c == ' ' || c == '\t' || c == '\n' || c == '\r' || c == '\x0b' || c == '\x0c' ||
  c == ' ' || c == '﻿'

/-- Scan for the first closing marker of a block comment; returns the number of
characters consumed up to and including the two marker characters.  This is the
lazy search performed by the block-comment pattern in the source. -/
def findCloseIdx : List Char → Option Nat
  | [] => none
  | c :: rest =>
      if c = '*' ∧ rest.head? = some '/' then some 2
      else (findCloseIdx rest).map (· + 1)

/-- Fueled worker for the block-comment removal; every step consumes at
least one character, so fuel equal to the input length never runs out. -/
def stripBlockFuel : Nat → List Char → List Char
  | 0, l => l
  | _ + 1, [] => []
  | fuel + 1, c :: rest =>
      if c = '/' ∧ rest.head? = some '*' then
        match findCloseIdx rest.tail with
        | some k => stripBlockFuel fuel (rest.tail.drop k)
        | none => c :: stripBlockFuel fuel rest
      else c :: stripBlockFuel fuel rest

/-- Global removal of block comments, as done by the first replace call in
isSafeSelectQuery: at each slash-star opener the nearest star-slash closer is
found and the whole comment is dropped; an unclosed opener is kept verbatim
(the lazy pattern then has no match). -/
def stripBlock (l : List Char) : List Char :=
  stripBlockFuel l.length l

/-- A character that does not terminate a line comment. -/
def notNewline (c : Char) : Bool := !(c == '\n' || c == '\r')

/-- Fueled worker for the line-comment removal; every step consumes at
least one character, so fuel equal to the input length never runs out. -/
def stripLineFuel : Nat → List Char → List Char
  | 0, l => l
  | _ + 1, [] => []
  | fuel + 1, c :: rest =>
      if c = '-' ∧ rest.head? = some '-' then stripLineFuel fuel (rest.tail.dropWhile notNewline)
      else c :: stripLineFuel fuel rest

/-- Global removal of line comments, as done by the second replace call: a
double dash and everything up to (excluding) the next newline is dropped. -/
def stripLine (l : List Char) : List Char :=
  stripLineFuel l.length l

/-- The trim call of the source, on character lists. -/
def jsTrimList (l : List Char) : List Char :=
  ((l.dropWhile isJsWhitespace).reverse.dropWhile isJsWhitespace).reverse

/-- The comment-stripped and trimmed text that all checks of the validator
are performed on. -/
def strippedText (q : String) : List Char :=
  jsTrimList (stripLine (stripBlock q.toList))

/-- Word characters of the word-boundary assertion. -/
def isWordChar (c : Char) : Bool :=
  (65 ≤ c.toNat && c.toNat ≤ 90) || (97 ≤ c.toNat && c.toNat ≤ 122) ||
  (48 ≤ c.toNat && c.toNat ≤ 57) || c == '_'

/-- Case-insensitive keyword match at the head of the text, with a trailing
word boundary (the keyword is given in lowercase). -/
def matchKwAt (kw : List Char) (t : List Char) : Bool :=
  ((t.take kw.length).map Char.toLower == kw) &&
  (match t.drop kw.length with
   | [] => true
   | c :: _ => !isWordChar c)

/-- Whole-word keyword search, tracking whether the previous character was a
word character (a match needs a word boundary on the left as well). -/
def containsKwAux (kw : List Char) : Bool → List Char → Bool
  | _, [] => false
  | prevWord, c :: rest =>
      ((!prevWord) && matchKwAt kw (c :: rest)) || containsKwAux kw (isWordChar c) rest

/-- Whole-word, case-insensitive occurrence of a keyword anywhere in the text. -/
def containsKw (kw : List Char) (t : List Char) : Bool :=
  containsKwAux kw false t

/-- The forbidden destructive keywords of the validator. -/
def forbiddenKws : List (List Char) :=
  ["update".toList, "delete".toList, "insert".toList, "drop".toList, "alter".toList,
   "create".toList, "truncate".toList, "grant".toList, "revoke".toList]

/-- Whole-word occurrence of any forbidden keyword. -/
def forbiddenPresent (t : List Char) : Bool :=
  forbiddenKws.any (fun kw => containsKw kw t)

/-- Number of statement terminators in the text. -/
def countSemis (t : List Char) : Nat := t.count ';'

/-- The final semicolon test of the validator: some semicolon is followed only
by whitespace up to the end of the text. -/
def semiEndTest (t : List Char) : Bool :=
  match t.reverse.dropWhile isJsWhitespace with
  | [] => false
  | c :: _ => c == ';'

/-- The SQL Safety Validator, Server.js lines 105-126. -/
def isSafeSelectQuery (query : String) : Bool :=
  if !(matchKwAt ("select".toList) (strippedText query)) then false
  else if !(containsKw ("from".toList) (strippedText query)) then false
  else if forbiddenPresent (strippedText query) then false
  else if 1 < countSemis (strippedText query) then false
  else if countSemis (strippedText query) = 1 ∧ !(semiEndTest (strippedText query)) then false
  else true

/-! ### Tunnel lifecycle state (Server.js lines 10-25) -/

/-- The mutable module-level slot: tunnelProcess (as an optional pid),
connectedEnv and tunnelLocalPort. -/
structure St where
  tunnelProcess : Option Nat
  connectedEnv : Option String
  tunnelLocalPort : Option Nat
deriving DecidableEq, Repr

/-- The status snapshot produced by getCurrentStatus. -/
structure Snapshot where
  status : String
  env : Option String
  pid : Option Nat
  localPort : Option Nat
deriving DecidableEq, Repr

/-- getCurrentStatus, Server.js lines 18-25; the pid field applies the
or-null coercion of the source to the pid of the handle. -/
def getCurrentStatus (s : St) : Snapshot :=
  { status := if s.tunnelProcess.isSome then "connected" else "disconnected"
    env := s.connectedEnv
    pid := match s.tunnelProcess with
           | some p => if p = 0 then none else some p
           | none => none
    localPort := s.tunnelLocalPort }

/-- The HTTP responses the connect and disconnect handlers can send. -/
inductive Resp
  | invalidEnv
  | loginFailed (stderr : String)
  | statusFailed (stderr : String)
  | spawnFailed
  | tunnelFailed (msg : String)
  | connectOk (tunnelPort : Nat) (statusOut : String)
  | disconnectOk
deriving DecidableEq, Repr

/-- One request-handling run: the slot state plus the per-response
headersSent flag and the observable outputs accumulated so far (responses
sent to the caller, snapshots broadcast over SSE, subprocess launches as
local-port and remote-host pairs). -/
structure Attempt where
  st : St
  headersSent : Bool
  responses : List Resp
  broadcasts : List Snapshot
  spawned : List (Nat × String)
deriving DecidableEq, Repr

/-- A fresh run over the current slot state. -/
def mkAttempt (s : St) : Attempt :=
  { st := s, headersSent := false, responses := [], broadcasts := [], spawned := [] }

/-- broadcastStatus as observed by subscribers: the current snapshot is
appended to the broadcast log. -/
def pushBroadcast (a : Attempt) : Attempt :=
  { a with broadcasts := a.broadcasts ++ [getCurrentStatus a.st] }

/-- Sending an HTTP response: records it and marks headers as sent. -/
def sendResp (r : Resp) (a : Attempt) : Attempt :=
  { a with responses := a.responses ++ [r], headersSent := true }

/-- The slot content after a teardown: all three fields nulled. -/
def clearedSlot : St := { tunnelProcess := none, connectedEnv := none, tunnelLocalPort := none }

/-! ### Subprocess event handlers registered by POST /connect
(Server.js lines 258-303) -/

/-- The spawn-error handler, lines 258-267: respond (if not yet responded),
null the slot, broadcast. -/
def onError (a : Attempt) : Attempt :=
  let a := if a.headersSent then a else sendResp .spawnFailed a
  pushBroadcast { a with st := clearedSlot }

/-- The stderr data handler, lines 269-280: only when the response was not
yet sent, kill the process, null the slot and respond; always broadcast. -/
def onStderr (msg : String) (a : Attempt) : Attempt :=
  let a := if a.headersSent then a
           else sendResp (.tunnelFailed msg) { a with st := clearedSlot }
  pushBroadcast a

/-- The close handler, lines 282-288: null the slot and broadcast
(no response is sent here). -/
def onClose (_code : Int) (a : Attempt) : Attempt :=
  pushBroadcast { a with st := clearedSlot }

/-- The confirmation setTimeout, lines 291-303: if no response was sent yet,
record the environment, broadcast, and send the success response. -/
def onTimer (env : String) (chosenPort : Nat) (statusOut : String) (a : Attempt) : Attempt :=
  if a.headersSent then a
  else
    let a := { a with st := { a.st with connectedEnv := some env } }
    sendResp (.connectOk chosenPort statusOut) (pushBroadcast a)

/-- The asynchronous events that can fire for a launched subprocess, in the
order they are dispatched; the confirmation timer is one of them. -/
inductive Ev
  | errorEv
  | stderrData (msg : String)
  | closeEv (code : Int)
  | timer
deriving DecidableEq, Repr

/-- Dispatch one event to its registered handler. -/
def stepEv (env : String) (cp : Nat) (so : String) : Ev → Attempt → Attempt
  | .errorEv => onError
  | .stderrData m => onStderr m
  | .closeEv c => onClose c
  | .timer => onTimer env cp so

/-- Run a sequence of subprocess events in dispatch order. -/
def runEvents (env : String) (cp : Nat) (so : String) : List Ev → Attempt → Attempt
  | [], a => a
  | e :: es, a => runEvents env cp so es (stepEv env cp so e a)

/-- Events that send a response when they fire first (the close handler
never responds). -/
def isResponderEv : Ev → Bool
  | .closeEv _ => false
  | _ => true

/-- The response the first-firing responder event sends.  The close-event
case is never used: it is guarded by isResponderEv. -/
def respOfEv (cp : Nat) (so : String) : Ev → Resp
  | .errorEv => .spawnFailed
  | .stderrData m => .tunnelFailed m
  | .closeEv _ => .spawnFailed
  | .timer => .connectOk cp so

/-- Stderr data events of the model. -/
def isStderrEv : Ev → Bool
  | .stderrData _ => true
  | _ => false

/-- Node stream ordering: no stderr data can be delivered after the close
event of the subprocess; event lists fed to the model satisfy this. -/
def stderrBeforeClose : List Ev → Bool
  | [] => true
  | .closeEv _ :: rest => rest.all (fun e => !isStderrEv e)
  | _ :: rest => stderrBeforeClose rest

/-! ### Port allocation and the connect flow (Server.js lines 196-307, 340-347) -/

/-- An environment profile of the envTunnel table, lines 39-43. -/
structure EnvCfg where
  defaultLocalPort : Nat
  remoteHost : String
deriving DecidableEq, Repr

/-- The envTunnel table. -/
def envTunnel : String → Option EnvCfg
  | "sit" => some { defaultLocalPort := 4085, remoteHost := "cdx-sit2-crs-tidb.int-np.cardx.co.th" }
  | "uat1" => some { defaultLocalPort := 4023, remoteHost := "cdx-uat-crs-tidb.int-np.cardx.co.th" }
  | "uat2" => some { defaultLocalPort := 4022, remoteHost := "cdx-uat2-crs-tidb.int-np.cardx.co.th" }
  | _ => none

/-- The consecutive ports base, base+1, ..., base+n-1, as produced by the
range construction of line 244. -/
def portSeq (base : Nat) : Nat → List Nat
  | 0 => []
  | n + 1 => base :: portSeq (base + 1) n

/-- The scan loop of lines 245-247: the first port of the list the prober
reports free, if any. -/
def scanPorts (isFree : Nat → Bool) : List Nat → Option Nat
  | [] => none
  | p :: ps => if isFree p then some p else scanPorts isFree ps

/-- The full port selection of lines 243-247: chosenPort starts at the
preferred port and the loop overwrites it with the first free port of the
51-port range, so when no port is free the preferred port remains. -/
def choosePortScan (isFree : Nat → Bool) (preferred : Nat) : Nat :=
  (scanPorts isFree (portSeq preferred 51)).getD preferred

/-- Outcomes of the external commands and probes a connect attempt consults:
the login command, the status command, the port prober, and the pid the
spawn call yields. -/
structure ConnOracles where
  login : Except String Unit
  statusCmd : Except String String
  isFree : Nat → Bool
  spawnPid : Nat

/-- The launch phase of POST /connect, lines 241-304: select the local port,
record it and broadcast, spawn the subprocess, then let the registered
handlers and the confirmation timer fire in event order. -/
def launchPhase (env : String) (cfg : EnvCfg) (statusOut : String)
    (isFree : Nat → Bool) (spawnPid : Nat) (events : List Ev) (a : Attempt) : Attempt :=
  let chosenPort := choosePortScan isFree cfg.defaultLocalPort
  let a := { a with st := { a.st with tunnelLocalPort := some chosenPort } }
  let a := pushBroadcast a
  let a := { a with st := { a.st with tunnelProcess := some spawnPid },
                    spawned := a.spawned ++ [(chosenPort, cfg.remoteHost)] }
  runEvents env chosenPort statusOut events a

/-- Lines 197-205: any existing tunnel is killed and the slot nulled and
broadcast before anything else happens in POST /connect. -/
def teardownExisting (a : Attempt) : Attempt :=
  match a.st.tunnelProcess with
  | some _ => pushBroadcast { a with st := clearedSlot }
  | none => a

/-- POST /connect, lines 196-307: teardown of any existing tunnel, then
environment validation, then the login and status commands, then the
launch phase. -/
def connect (envReq : Option String) (o : ConnOracles) (events : List Ev) (s : St) : Attempt :=
  let a := teardownExisting (mkAttempt s)
  match envReq with
  | none => sendResp .invalidEnv a
  | some env =>
    match envTunnel env with
    | none => sendResp .invalidEnv a
    | some cfg =>
      match o.login with
      | .error stderr => sendResp (.loginFailed stderr) a
      | .ok _ =>
        match o.statusCmd with
        | .error stderr => sendResp (.statusFailed stderr) a
        | .ok statusOut => launchPhase env cfg statusOut o.isFree o.spawnPid events a

/-- POST /disconnect, lines 310-333: if a process is running, kill it, null
the process handle and the environment (the local port is left as is) and
broadcast; then run the logout command, whose failure is only logged, and
always send the success response and broadcast. -/
def disconnectRun (_logoutFails : Bool) (s : St) : Attempt :=
  let a := mkAttempt s
  let a := match a.st.tunnelProcess with
           | some _ => pushBroadcast
               { a with st := { a.st with tunnelProcess := none, connectedEnv := none } }
           | none => a
  let a := sendResp .disconnectOk a
  pushBroadcast a

/-! ### Status Broadcaster delivery (Server.js lines 27-36, 67-72) -/

/-- The broadcast loop over the subscriber set, with a write oracle saying
which subscribers' writes succeed: each write is attempted inside its own
try/catch, a failure is swallowed, and the set itself is not touched.
Returns the subscriber set after the loop and the list of subscribers the
payload was delivered to. -/
def broadcastWrite (writeOk : Nat → Bool) : List Nat → List Nat × List Nat
  | [] => ([], [])
  | c :: cs =>
      let r := broadcastWrite writeOk cs
      (c :: r.1, (if writeOk c then [c] else []) ++ r.2)

/-- The close handler of a subscribed stream, lines 68-72: the observer is
removed from the set there. -/
def onObserverClose (clients : List Nat) (c : Nat) : List Nat :=
  clients.erase c

/-! ### SQL Gateway: POST /execute-sql (Server.js lines 129-193) -/

/-- The dbConfig object of the request body; an absent field is none.  The
port is a number in the source and participates in truthiness checks. -/
structure DbConfig where
  host : Option String
  port : Option Nat
  user : Option String
  password : Option String
  database : Option String
deriving DecidableEq, Repr

/-- Truthiness of an optional string value: the empty string and an absent
value are falsy. -/
def truthyStr : Option String → Bool
  | some s => s != ""
  | none => false

/-- Truthiness of an optional numeric value: zero and an absent value are
falsy. -/
def truthyPort : Option Nat → Bool
  | some p => p != 0
  | none => false

/-- The lowercase conversion used by the host comparison. -/
def jsLower (s : String) : String := String.mk (s.toList.map Char.toLower)

/-- The trim call on strings. -/
def jsTrimStr (s : String) : String := String.mk (jsTrimList s.toList)

/-- First normalization step of line 141: a falsy host defaults to the IPv4
loopback, and the value is trimmed. -/
def normalizeHostPre (h : Option String) : String :=
  jsTrimStr (match h with
             | none => "127.0.0.1"
             | some s => if s = "" then "127.0.0.1" else s)

/-- Host normalization, lines 141-144: after the default-and-trim step,
localhost (case-insensitively), the empty string and the IPv6 loopback are
replaced by the IPv4 loopback. -/
def normalizeHost (h : Option String) : String :=
  if jsLower (normalizeHostPre h) = "localhost" ∨ normalizeHostPre h = "" ∨
     normalizeHostPre h = "::1" then "127.0.0.1"
  else normalizeHostPre h

/-- Outcomes of the external interactions of one execute-sql request: the
TCP reachability probe, the database connection attempt, and the query
execution (rows are abstracted as strings). -/
structure SqlOracles where
  probe : Except String Unit
  connectDb : Except String Unit
  runQuery : Except String (List String)
deriving Repr

/-- The externally visible interactions an execute-sql request performs, in
order. -/
inductive SqlEv
  | probeEv (host : String) (port : Nat)
  | dbConnectEv (host : String) (port : Nat)
  | dbCloseEv
deriving DecidableEq, Repr

/-- The responses of POST /execute-sql. -/
inductive SqlResp
  | missingInput
  | queryRejected
  | incompleteConfig
  | tunnelUnreachable (msg : String)
  | serverError (msg : String)
  | queryFailed (msg : String)
  | rows (data : List String)
deriving DecidableEq, Repr

/-- The 502 diagnostic of lines 166-169, carrying the probe error text. -/
def tcpFailMsg (host : String) (port : Nat) (diag : String) : String :=
  ("Cannot reach " ++ host ++ ":" ++ toString port ++
   ". Ensure SSH tunnel is connected for the selected environment and the local port is open. (") ++
  (diag ++ ")")

/-- POST /execute-sql, lines 129-193: input presence checks, the safety
validator, host normalization and the completeness check, the TCP
reachability probe, and only then one database connection, one statement,
and an unconditional close.  Returns the response together with the ordered
interaction trace. -/
def executeSql (query : Option String) (cfg : Option DbConfig) (o : SqlOracles) :
    SqlResp × List SqlEv :=
  match query, cfg with
  | some q, some c =>
    if q = "" then (.missingInput, [])
    else if isSafeSelectQuery q = false then (.queryRejected, [])
    else if normalizeHost c.host = "" ∨ truthyPort c.port = false ∨ truthyStr c.user = false then
      (.incompleteConfig, [])
    else
      match o.probe with
      | .error diag =>
          (.tunnelUnreachable (tcpFailMsg (normalizeHost c.host) (c.port.getD 0) diag),
           [.probeEv (normalizeHost c.host) (c.port.getD 0)])
      | .ok _ =>
        match o.connectDb with
        | .error msg =>
            (.serverError msg,
             [.probeEv (normalizeHost c.host) (c.port.getD 0),
              .dbConnectEv (normalizeHost c.host) (c.port.getD 0)])
        | .ok _ =>
          match o.runQuery with
          | .ok data =>
              (.rows data,
               [.probeEv (normalizeHost c.host) (c.port.getD 0),
                .dbConnectEv (normalizeHost c.host) (c.port.getD 0), .dbCloseEv])
          | .error msg =>
              (.queryFailed msg,
               [.probeEv (normalizeHost c.host) (c.port.getD 0),
                .dbConnectEv (normalizeHost c.host) (c.port.getD 0), .dbCloseEv])
  | _, _ => (.missingInput, [])

/-- Database-connection events of the trace. -/
def isDbConnect : SqlEv → Bool
  | .dbConnectEv _ _ => true
  | _ => false

/-- Probe events of the trace. -/
def isProbe : SqlEv → Bool
  | .probeEv _ _ => true
  | _ => false

/-! ### Concrete fixtures used by witnesses and counterexamples -/

/-- A live session: subprocess pid 7, sit environment, port 4085. -/
def stLive : St :=
  { tunnelProcess := some 7, connectedEnv := some "sit", tunnelLocalPort := some 4085 }

/-- Oracles for a connect run in which login and status succeed and every
port is free. -/
def oracleAllFree : ConnOracles :=
  { login := .ok (), statusCmd := .ok "st", isFree := fun _ => true, spawnPid := 9 }

/-- Oracles for a connect run in which login and status succeed and no
port is free. -/
def oracleAllBusy : ConnOracles :=
  { login := .ok (), statusCmd := .ok "st", isFree := fun _ => false, spawnPid := 9 }

/-- TunnelLaunchFailed responses. -/
def isLaunchFailedResp : Resp → Bool
  | .tunnelFailed _ => true
  | _ => false

/-- Whether a snapshot has environment and localPort both present or both
absent. -/
def envPortAligned (sn : Snapshot) : Bool :=
  sn.env.isSome == sn.localPort.isSome

/-- A connect attempt over a live session whose response has already been
sent. -/
def attAfterResp : Attempt :=
  { st := stLive, headersSent := true, responses := [Resp.connectOk 4085 "st"],
    broadcasts := [], spawned := [] }

/-- SQL oracles whose reachability probe fails. -/
def oracleProbeFail : SqlOracles :=
  { probe := .error "ECONNREFUSED", connectDb := .ok (), runQuery := .ok [] }

/-- A dbConfig with no host, a truthy port and a truthy user. -/
def cfgNoHost : DbConfig :=
  { host := none, port := some 4085, user := some "u", password := none, database := none }

/-- A safe query fixture. -/
def qSafe : String := "select id from t;"

/-! ## Helper lemmas -/

/-- Once the response is sent, no later subprocess event responds. -/
theorem stepEv_of_sent (env : String) (cp : Nat) (so : String) (e : Ev) (a : Attempt)
    (h : a.headersSent = true) :
    (stepEv env cp so e a).responses = a.responses ∧
    (stepEv env cp so e a).headersSent = true := by
  cases e <;>
    simp [stepEv, onError, onStderr, onClose, onTimer, pushBroadcast, sendResp, h]

/-- Once the response is sent, the remaining events leave the response log
unchanged. -/
theorem runEvents_of_sent (env : String) (cp : Nat) (so : String) (es : List Ev) :
    ∀ a : Attempt, a.headersSent = true →
    (runEvents env cp so es a).responses = a.responses := by
  induction es with
  | nil => intro a _; rfl
  | cons e es ih =>
    intro a h
    have hs := stepEv_of_sent env cp so e a h
    rw [runEvents, ih _ hs.2, hs.1]

/-- A responder event firing before the response was sent appends exactly
its response and marks headers sent. -/
theorem stepEv_responder (env : String) (cp : Nat) (so : String) (e : Ev) (a : Attempt)
    (h : a.headersSent = false) (hr : isResponderEv e = true) :
    (stepEv env cp so e a).responses = a.responses ++ [respOfEv cp so e] ∧
    (stepEv env cp so e a).headersSent = true := by
  cases e <;>
    simp_all [stepEv, onError, onStderr, onClose, onTimer, pushBroadcast, sendResp,
      respOfEv, isResponderEv]

/-- The close event neither responds nor changes the headers-sent flag. -/
theorem stepEv_nonresponder (env : String) (cp : Nat) (so : String) (e : Ev) (a : Attempt)
    (hr : isResponderEv e = false) :
    (stepEv env cp so e a).responses = a.responses ∧
    (stepEv env cp so e a).headersSent = a.headersSent := by
  cases e <;> simp_all [stepEv, onClose, pushBroadcast, isResponderEv]

/-- Response log of an event run started before any response: exactly the
response of the first responder event, if there is one. -/
theorem runEvents_responses (env : String) (cp : Nat) (so : String) (es : List Ev) :
    ∀ a : Attempt, a.headersSent = false →
    (runEvents env cp so es a).responses =
      a.responses ++ (match es.find? isResponderEv with
                      | some e => [respOfEv cp so e]
                      | none => []) := by
  induction es with
  | nil => intro a _; simp [runEvents]
  | cons e es ih =>
    intro a h
    rw [runEvents]
    by_cases hr : isResponderEv e = true
    · have hs := stepEv_responder env cp so e a h hr
      rw [runEvents_of_sent env cp so es _ hs.2, hs.1, List.find?_cons_of_pos _ hr]
    · have hrf : isResponderEv e = false := by
        revert hr; cases isResponderEv e <;> simp
      have hs := stepEv_nonresponder env cp so e a hrf
      rw [ih _ (hs.2.trans h), hs.1, List.find?_cons_of_neg _ (by simp [hrf])]

/-- No subprocess event launches another subprocess. -/
theorem stepEv_spawned (env : String) (cp : Nat) (so : String) (e : Ev) (a : Attempt) :
    (stepEv env cp so e a).spawned = a.spawned := by
  cases e <;>
    simp only [stepEv, onError, onStderr, onClose, onTimer, pushBroadcast, sendResp] <;>
    (try split) <;>
    simp [pushBroadcast, sendResp]

/-- An event run launches no subprocess. -/
theorem runEvents_spawned (env : String) (cp : Nat) (so : String) (es : List Ev) :
    ∀ a : Attempt, (runEvents env cp so es a).spawned = a.spawned := by
  induction es with
  | nil => intro a; rfl
  | cons e es ih => intro a; rw [runEvents, ih, stepEv_spawned]

/-- The teardown prologue of a fresh connect run sends no response, marks
nothing sent, and spawns nothing. -/
theorem teardownExisting_mk (s : St) :
    (teardownExisting (mkAttempt s)).responses = [] ∧
    (teardownExisting (mkAttempt s)).headersSent = false ∧
    (teardownExisting (mkAttempt s)).spawned = [] := by
  cases h : s.tunnelProcess <;>
    simp [teardownExisting, mkAttempt, pushBroadcast, h]

/-- The scan returns the first free port of a consecutive range. -/
theorem scanPorts_first_free (free : Nat → Bool) :
    ∀ (n base i : Nat), i < n → free (base + i) = true →
    (∀ j, j < i → free (base + j) = false) →
    scanPorts free (portSeq base n) = some (base + i) := by
  intro n
  induction n with
  | zero => intro base i hi _ _; exact absurd hi (Nat.not_lt_zero i)
  | succ n ih =>
    intro base i hi hf hmin
    cases i with
    | zero =>
      have h0 : free base = true := by simpa using hf
      simp [portSeq, scanPorts, h0]
    | succ k =>
      have h0 : free base = false := by simpa using hmin 0 (Nat.succ_pos k)
      have hrec : scanPorts free (portSeq (base + 1) n) = some (base + 1 + k) := by
        apply ih
        · omega
        · have he : base + 1 + k = base + (k + 1) := by omega
          rw [he]; exact hf
        · intro j hj
          have he : base + 1 + j = base + (j + 1) := by omega
          rw [he]; exact hmin (j + 1) (by omega)
      rw [show portSeq base (n + 1) = base :: portSeq (base + 1) n from rfl]
      rw [show scanPorts free (base :: portSeq (base + 1) n)
            = scanPorts free (portSeq (base + 1) n) from by simp [scanPorts, h0]]
      rw [hrec]
      congr 1
      omega

/-- When no port of the range is free the scan yields nothing. -/
theorem scanPorts_all_busy (free : Nat → Bool) :
    ∀ (n base : Nat), (∀ i, i < n → free (base + i) = false) →
    scanPorts free (portSeq base n) = none := by
  intro n
  induction n with
  | zero => intro base _; rfl
  | succ n ih =>
    intro base h
    have h0 : free base = false := by simpa using h 0 (Nat.succ_pos n)
    rw [show portSeq base (n + 1) = base :: portSeq (base + 1) n from rfl]
    rw [show scanPorts free (base :: portSeq (base + 1) n)
          = scanPorts free (portSeq (base + 1) n) from by simp [scanPorts, h0]]
    apply ih
    intro i hi
    have he : base + 1 + i = base + (i + 1) := by omega
    rw [he]; exact h (i + 1) (by omega)

/-- Dropping a prefix of matching characters twice is the same as once. -/
theorem dropWhile_idem (p : Char → Bool) (l : List Char) :
    (l.dropWhile p).dropWhile p = l.dropWhile p := by
  induction l with
  | nil => rfl
  | cons c cs ih => by_cases h : p c <;> simp [List.dropWhile_cons, h, ih]

/-- The validator's text is trimmed: its reversal has no whitespace prefix. -/
theorem strippedText_reverse_trimmed (q : String) :
    (strippedText q).reverse.dropWhile isJsWhitespace = (strippedText q).reverse := by
  unfold strippedText jsTrimList
  rw [List.reverse_reverse]
  exact dropWhile_idem _ _

/-- On the trimmed text, the trailing-semicolon test means the last
character is the semicolon. -/
theorem semiEnd_getLast (q : String) (h : semiEndTest (strippedText q) = true) :
    (strippedText q).getLast? = some ';' := by
  unfold semiEndTest at h
  rw [strippedText_reverse_trimmed] at h
  rw [← List.head?_reverse]
  cases hr : (strippedText q).reverse with
  | nil => rw [hr] at h; simp at h
  | cons c cs =>
    rw [hr] at h
    simp only [List.head?]
    have : c = ';' := by simpa using h
    rw [this]

/-- The broadcast loop leaves the subscriber set untouched and delivers to
exactly the subscribers whose writes succeed. -/
theorem broadcastWrite_spec (writeOk : Nat → Bool) (clients : List Nat) :
    (broadcastWrite writeOk clients).1 = clients ∧
    (broadcastWrite writeOk clients).2 = clients.filter writeOk := by
  induction clients with
  | nil => exact ⟨rfl, rfl⟩
  | cons c cs ih =>
    by_cases h : writeOk c <;>
      simp [broadcastWrite, ih.1, ih.2, List.filter_cons, h]

/-! ## Claim theorems -/

/-- C7: every query string accepted by the SQL Safety Validator has, after
stripping block comments, line comments and surrounding whitespace, a text
that starts with the case-insensitive keyword SELECT, contains the keyword
FROM, contains no whole-word occurrence of any forbidden keyword, and
contains at most one semicolon, which if present is the final character. -/
theorem safe_query_shape (q : String) (h : isSafeSelectQuery q = true) :
    matchKwAt ("select".toList) (strippedText q) = true ∧
    containsKw ("from".toList) (strippedText q) = true ∧
    (∀ kw ∈ forbiddenKws, containsKw kw (strippedText q) = false) ∧
    countSemis (strippedText q) ≤ 1 ∧
    (countSemis (strippedText q) = 1 → (strippedText q).getLast? = some ';') := by
  unfold isSafeSelectQuery at h
  split_ifs at h with h1 h2 h3 h4 h5
  refine ⟨?_, ?_, ?_, ?_, ?_⟩
  · revert h1; cases matchKwAt ("select".toList) (strippedText q) <;> simp
  · revert h2; cases containsKw ("from".toList) (strippedText q) <;> simp
  · intro kw hkw
    have hfp : forbiddenPresent (strippedText q) = false := by
      revert h3; cases forbiddenPresent (strippedText q) <;> simp
    have := List.any_eq_false.mp hfp kw hkw
    revert this; cases containsKw kw (strippedText q) <;> simp
  · omega
  · intro hc
    apply semiEnd_getLast
    by_contra hse
    have hse2 : semiEndTest (strippedText q) = false := by
      revert hse; cases semiEndTest (strippedText q) <;> simp
    exact h5 ⟨hc, by simp [hse2]⟩

/-- C7 witness: a concrete accepted query exhibiting the shape. -/
theorem safe_query_shape_w :
    isSafeSelectQuery qSafe = true ∧
    (matchKwAt ("select".toList) (strippedText qSafe) = true ∧
     containsKw ("from".toList) (strippedText qSafe) = true ∧
     (∀ kw ∈ forbiddenKws, containsKw kw (strippedText qSafe) = false) ∧
     countSemis (strippedText qSafe) ≤ 1 ∧
     (countSemis (strippedText qSafe) = 1 → (strippedText qSafe).getLast? = some ';')) :=
  ⟨by decide, safe_query_shape qSafe (by decide)⟩

/-- C9: disconnect always reports success and leaves the session
disconnected, regardless of the starting state and of the logout command's
outcome, and a second disconnect behaves the same; the result does not
depend on whether logout fails. -/
theorem disconnect_idempotent_success (b1 b2 : Bool) (s : St) :
    (disconnectRun b1 s).responses = [Resp.disconnectOk] ∧
    (getCurrentStatus (disconnectRun b1 s).st).status = "disconnected" ∧
    (disconnectRun b2 (disconnectRun b1 s).st).responses = [Resp.disconnectOk] ∧
    (getCurrentStatus (disconnectRun b2 (disconnectRun b1 s).st).st).status = "disconnected" ∧
    disconnectRun b1 s = disconnectRun b2 s := by
  cases h : s.tunnelProcess <;>
    simp [disconnectRun, mkAttempt, pushBroadcast, sendResp, getCurrentStatus, h]

/-- C9 witness: both disconnect calls on a live session report success and
leave the session disconnected. -/
theorem disconnect_idempotent_success_w :
    (disconnectRun true stLive).responses = [Resp.disconnectOk] ∧
    (getCurrentStatus (disconnectRun true stLive).st).status = "disconnected" ∧
    (disconnectRun false (disconnectRun true stLive).st).responses = [Resp.disconnectOk] ∧
    (getCurrentStatus
       (disconnectRun false (disconnectRun true stLive).st).st).status = "disconnected" ∧
    disconnectRun true stLive = disconnectRun false stLive :=
  disconnect_idempotent_success true false stLive

/-- C8 (amended): a write failure during a broadcast is swallowed and does
not affect delivery to the other observers, but the failing observer is not
removed by the broadcast loop — the observer set is unchanged; observers are
removed only by the close handler of their own stream. -/
theorem broadcast_isolation_no_removal (writeOk : Nat → Bool) (clients : List Nat) (c : Nat) :
    (broadcastWrite writeOk clients).1 = clients ∧
    (broadcastWrite writeOk clients).2 = clients.filter writeOk ∧
    onObserverClose clients c = clients.erase c :=
  ⟨(broadcastWrite_spec writeOk clients).1, (broadcastWrite_spec writeOk clients).2, rfl⟩

/-- C8 witness: three observers, the write to the second failing. -/
theorem broadcast_isolation_no_removal_w :
    (broadcastWrite (fun o => o != 2) [1, 2, 3]).1 = [1, 2, 3] ∧
    (broadcastWrite (fun o => o != 2) [1, 2, 3]).2 = [1, 2, 3].filter (fun o => o != 2) ∧
    onObserverClose [1, 2, 3] 2 = [1, 2, 3].erase 2 :=
  broadcast_isolation_no_removal (fun o => o != 2) [1, 2, 3] 2

/-- C8 counterexample: the observer whose write fails is still in the
observer set after the broadcast, while the other two were delivered to —
so the failing observer is not removed on a failed write. -/
theorem failed_write_observer_not_removed :
    (broadcastWrite (fun o => o != 2) [1, 2, 3]).1 = [1, 2, 3] ∧
    2 ∈ (broadcastWrite (fun o => o != 2) [1, 2, 3]).1 ∧
    (broadcastWrite (fun o => o != 2) [1, 2, 3]).2 = [1, 3] :=
  ⟨rfl, by decide, rfl⟩

/-- The normalized host is never the empty string. -/
theorem normalizeHost_ne_empty (h : Option String) : normalizeHost h ≠ "" := by
  unfold normalizeHost
  split_ifs with h1
  · decide
  · push_neg at h1
    exact h1.2.1

/-- C6: whenever the reachability probe of an execute-sql request fails, no
database connection is ever attempted, the response is TunnelUnreachable
carrying the probe diagnostic, and (for any oracle outcomes) the probe is
the first external interaction — a database connection is never attempted
before it. -/
theorem probe_failure_no_db (query : Option String) (cfg : Option DbConfig)
    (o : SqlOracles) (diag : String) (h : o.probe = Except.error diag) :
    (executeSql query cfg o).2.any isDbConnect = false ∧
    (∀ host port, SqlEv.probeEv host port ∈ (executeSql query cfg o).2 →
       (executeSql query cfg o).1 = SqlResp.tunnelUnreachable (tcpFailMsg host port diag)) ∧
    (∀ host port, ∃ s1 s2, tcpFailMsg host port diag = s1 ++ (diag ++ s2)) ∧
    (∀ (o2 : SqlOracles) (e : SqlEv) (es : List SqlEv),
       (executeSql query cfg o2).2 = e :: es → isProbe e = true) := by
  refine ⟨?_, ?_, ?_, ?_⟩
  · cases query with
    | none => simp [executeSql]
    | some q =>
      cases cfg with
      | none => simp [executeSql]
      | some c =>
        simp only [executeSql]
        split_ifs <;> simp_all [isDbConnect]
  · intro host port hmem
    revert hmem
    cases query with
    | none => simp [executeSql]
    | some q =>
      cases cfg with
      | none => simp [executeSql]
      | some c =>
        simp only [executeSql]
        split_ifs <;> simp_all
  · intro host port
    exact ⟨"Cannot reach " ++ host ++ ":" ++ toString port ++
      ". Ensure SSH tunnel is connected for the selected environment and the local port is open. (",
      ")", rfl⟩
  · intro o2 e es heq
    revert heq
    cases query with
    | none => simp [executeSql]
    | some q =>
      cases cfg with
      | none => simp [executeSql]
      | some c =>
        simp only [executeSql]
        split_ifs <;>
          cases hp : o2.probe <;>
          cases hc : o2.connectDb <;>
          cases hr : o2.runQuery <;>
          simp_all [isProbe] <;>
          (intro h1 _; subst h1; rfl)

/-- C6 witness: a concrete request whose probe fails with a connection
error. -/
theorem probe_failure_no_db_w :
    oracleProbeFail.probe = Except.error "ECONNREFUSED" ∧
    ((executeSql (some qSafe) (some cfgNoHost) oracleProbeFail).2.any isDbConnect = false ∧
     (∀ host port,
        SqlEv.probeEv host port ∈ (executeSql (some qSafe) (some cfgNoHost) oracleProbeFail).2 →
        (executeSql (some qSafe) (some cfgNoHost) oracleProbeFail).1 =
          SqlResp.tunnelUnreachable (tcpFailMsg host port "ECONNREFUSED")) ∧
     (∀ host port, ∃ s1 s2, tcpFailMsg host port "ECONNREFUSED" = s1 ++ ("ECONNREFUSED" ++ s2)) ∧
     (∀ (o2 : SqlOracles) (e : SqlEv) (es : List SqlEv),
        (executeSql (some qSafe) (some cfgNoHost) o2).2 = e :: es → isProbe e = true)) :=
  ⟨rfl, probe_failure_no_db (some qSafe) (some cfgNoHost) oracleProbeFail "ECONNREFUSED" rfl⟩

/-- C10: after normalization the host of an execute-sql request is always a
non-empty string — a missing, blank, localhost or IPv6-loopback host becomes
the IPv4 loopback — so for a present, validator-accepted query the
incomplete-configuration rejection fires exactly when the port or the user
is missing (falsy); the missing-host part of that check is unreachable. -/
theorem host_check_unreachable (h : Option String) (q : String) (c : DbConfig)
    (o : SqlOracles) (hq : isSafeSelectQuery q = true) :
    normalizeHost h ≠ "" ∧
    normalizeHost none = "127.0.0.1" ∧
    normalizeHost (some "") = "127.0.0.1" ∧
    normalizeHost (some "   ") = "127.0.0.1" ∧
    normalizeHost (some "LocalHost") = "127.0.0.1" ∧
    normalizeHost (some "::1") = "127.0.0.1" ∧
    ((executeSql (some q) (some c) o).1 = SqlResp.incompleteConfig ↔
      (truthyPort c.port = false ∨ truthyStr c.user = false)) := by
  have hqe : q ≠ "" := by
    intro he; rw [he] at hq; revert hq; decide
  refine ⟨normalizeHost_ne_empty h, by decide, by decide, by decide, by decide, by decide, ?_⟩
  have key : (executeSql (some q) (some c) o).1 = SqlResp.incompleteConfig ↔
      (normalizeHost c.host = "" ∨ truthyPort c.port = false ∨ truthyStr c.user = false) := by
    simp only [executeSql]
    rw [if_neg hqe, if_neg (by rw [hq]; simp)]
    by_cases hcond :
        normalizeHost c.host = "" ∨ truthyPort c.port = false ∨ truthyStr c.user = false
    · rw [if_pos hcond]
      simpa using hcond
    · rw [if_neg hcond]
      simp only [hcond, iff_false]
      cases hp : o.probe <;> cases hc2 : o.connectDb <;> cases hr : o.runQuery <;> simp
  rw [key, or_iff_right (normalizeHost_ne_empty c.host)]

/-- C1 (amended): for every connect attempt whose event sequence contains
the confirmation timer (it always fires) and respects stream ordering,
exactly one HTTP response is sent — never both and never neither; on the
launch path the response is the success response exactly when the first
responding event (stderr data, spawn error, or the timer) is the timer;
when the first responding event is stderr data the single response is the
tunnel-launch failure carrying that captured stderr text, and when it is
the spawn error it is the fixed spawn-failure response; a bare subprocess
exit never responds, so an exit within the delay still yields the success
response. -/
theorem connect_exactly_one_response
    (envReq : Option String) (o : ConnOracles) (events : List Ev) (s : St)
    (htimer : Ev.timer ∈ events) (_hwf : stderrBeforeClose events = true) :
    (connect envReq o events s).responses.length = 1 ∧
    (∀ env cfg out, envReq = some env → envTunnel env = some cfg →
       o.login = Except.ok () → o.statusCmd = Except.ok out →
       (((connect envReq o events s).responses =
           [Resp.connectOk (choosePortScan o.isFree cfg.defaultLocalPort) out] ↔
         events.find? isResponderEv = some Ev.timer) ∧
        (∀ m, events.find? isResponderEv = some (Ev.stderrData m) →
           (connect envReq o events s).responses = [Resp.tunnelFailed m]) ∧
        (events.find? isResponderEv = some Ev.errorEv →
           (connect envReq o events s).responses = [Resp.spawnFailed]))) := by
  obtain ⟨hre, hhs, hsp⟩ := teardownExisting_mk s
  have hfind : ∃ e0, events.find? isResponderEv = some e0 :=
    Option.isSome_iff_exists.mp (List.find?_isSome.mpr ⟨Ev.timer, htimer, rfl⟩)
  obtain ⟨e0, he0⟩ := hfind
  have hpe0 : isResponderEv e0 = true := List.find?_some he0
  cases envReq with
  | none =>
    refine ⟨by simp [connect, sendResp, hre], ?_⟩
    intro env cfg out h1
    exact absurd h1 (by simp)
  | some env =>
    cases hcfg : envTunnel env with
    | none =>
      refine ⟨by simp [connect, hcfg, sendResp, hre], ?_⟩
      intro env2 cfg out h1 h2
      injection h1 with h1e
      subst h1e
      rw [hcfg] at h2
      exact absurd h2 (by simp)
    | some cfg =>
      cases hlog : o.login with
      | error le =>
        refine ⟨by simp [connect, hcfg, hlog, sendResp, hre], ?_⟩
        intro env2 cfg2 out h1 h2 h3
        exact absurd h3 (by simp)
      | ok lu =>
        cases hst : o.statusCmd with
        | error se =>
          refine ⟨by simp [connect, hcfg, hlog, hst, sendResp, hre], ?_⟩
          intro env2 cfg2 out h1 h2 h3 h4
          exact absurd h4 (by simp)
        | ok out0 =>
          have key : (connect (some env) o events s).responses =
              [respOfEv (choosePortScan o.isFree cfg.defaultLocalPort) out0 e0] := by
            simp only [connect, hcfg, hlog, hst]
            unfold launchPhase
            rw [runEvents_responses _ _ _ events _ (by simp [pushBroadcast, hhs]), he0]
            simp [pushBroadcast, hre]
          constructor
          · rw [key]; rfl
          · intro env2 cfg2 out2 h1 h2 h3 h4
            injection h1 with h1e
            subst h1e
            rw [hcfg] at h2
            injection h2 with h2e
            subst h2e
            injection h4 with h4e
            subst h4e
            refine ⟨?_, ?_, ?_⟩
            · rw [key]
              constructor
              · intro hr
                simp only [List.cons.injEq, and_true] at hr
                cases e0 with
                | errorEv => exact absurd hr (by simp [respOfEv])
                | stderrData m => exact absurd hr (by simp [respOfEv])
                | closeEv c => exact absurd hpe0 (by simp [isResponderEv])
                | timer => exact he0
              · intro hr
                have he1 : e0 = Ev.timer := Option.some.inj (he0.symm.trans hr)
                subst he1
                rfl
            · intro m hm
              have he1 : e0 = Ev.stderrData m := Option.some.inj (he0.symm.trans hm)
              subst he1
              rw [key]
              rfl
            · intro hm
              have he1 : e0 = Ev.errorEv := Option.some.inj (he0.symm.trans hm)
              subst he1
              rw [key]
              rfl

/-- C1 witness: stderr data arrives before the timer; the single response
is the launch-failure response carrying the captured stderr text, not the
success response. -/
theorem connect_exactly_one_response_w :
    Ev.timer ∈ [Ev.stderrData "boom", Ev.timer] ∧
    stderrBeforeClose [Ev.stderrData "boom", Ev.timer] = true ∧
    ((connect (some "sit") oracleAllFree [Ev.stderrData "boom", Ev.timer]
        clearedSlot).responses.length = 1 ∧
     (∀ env cfg out, some "sit" = some env → envTunnel env = some cfg →
        oracleAllFree.login = Except.ok () → oracleAllFree.statusCmd = Except.ok out →
        (((connect (some "sit") oracleAllFree [Ev.stderrData "boom", Ev.timer]
             clearedSlot).responses =
            [Resp.connectOk (choosePortScan oracleAllFree.isFree cfg.defaultLocalPort) out] ↔
          [Ev.stderrData "boom", Ev.timer].find? isResponderEv = some Ev.timer) ∧
         (∀ m, [Ev.stderrData "boom", Ev.timer].find? isResponderEv =
                 some (Ev.stderrData m) →
            (connect (some "sit") oracleAllFree [Ev.stderrData "boom", Ev.timer]
                clearedSlot).responses = [Resp.tunnelFailed m]) ∧
         ([Ev.stderrData "boom", Ev.timer].find? isResponderEv = some Ev.errorEv →
            (connect (some "sit") oracleAllFree [Ev.stderrData "boom", Ev.timer]
                clearedSlot).responses = [Resp.spawnFailed])))) :=
  ⟨by decide, by decide,
   connect_exactly_one_response (some "sit") oracleAllFree
     [Ev.stderrData "boom", Ev.timer] clearedSlot (by decide) (by decide)⟩

/-- C1 counterexample: the subprocess exits (close event, a failure signal)
within the confirmation delay, yet the single response the caller receives
is the success response, not a TunnelLaunchFailed error. -/
theorem connect_exit_in_delay_gets_success :
    (connect (some "sit") oracleAllFree [Ev.closeEv 0, Ev.timer] clearedSlot).responses =
      [Resp.connectOk 4085 "st"] ∧
    ((connect (some "sit") oracleAllFree [Ev.closeEv 0, Ev.timer] clearedSlot).responses.map
        isLaunchFailedResp) = [false] :=
  ⟨rfl, rfl⟩

/-- C3 (amended): the port scan returns the first free port of the range
preferred..preferred+50; when none of these ports is free it falls back to
the preferred port itself, and the connect attempt still proceeds to launch
the tunnel subprocess on the scan result — there is no no-port-available
failure before the launch. -/
theorem port_scan_first_free_or_fallback (free : Nat → Bool) (pref : Nat) :
    (∀ i, i ≤ 50 → free (pref + i) = true → (∀ j, j < i → free (pref + j) = false) →
       choosePortScan free pref = pref + i) ∧
    ((∀ i, i ≤ 50 → free (pref + i) = false) → choosePortScan free pref = pref) ∧
    (∀ (o : ConnOracles) (events : List Ev) (s : St) (env : String) (cfg : EnvCfg)
       (out : String), envTunnel env = some cfg → o.login = Except.ok () →
       o.statusCmd = Except.ok out →
       (connect (some env) o events s).spawned =
         [(choosePortScan o.isFree cfg.defaultLocalPort, cfg.remoteHost)]) := by
  refine ⟨?_, ?_, ?_⟩
  · intro i hi hf hmin
    unfold choosePortScan
    rw [scanPorts_first_free free 51 pref i (by omega) hf hmin]
    rfl
  · intro hbusy
    unfold choosePortScan
    rw [scanPorts_all_busy free 51 pref (fun i hi => hbusy i (by omega))]
    rfl
  · intro o events s env cfg out hcfg hlog hst
    obtain ⟨hre, hhs, hsp⟩ := teardownExisting_mk s
    simp only [connect, hcfg, hlog, hst]
    unfold launchPhase
    rw [runEvents_spawned]
    simp [pushBroadcast, hsp]

/-- C3 witness: with the preferred port 4085 occupied and 4088 the first
free port the scan returns 4088; with every port busy it returns 4085. -/
theorem port_scan_first_free_or_fallback_w :
    choosePortScan (fun p => p == 4088) 4085 = 4085 + 3 ∧
    choosePortScan (fun _ => false) 4085 = 4085 :=
  ⟨(port_scan_first_free_or_fallback (fun p => p == 4088) 4085).1 3 (by omega) (by decide)
     (by intro j hj; interval_cases j <;> decide),
   (port_scan_first_free_or_fallback (fun _ => false) 4085).2.1 (fun i _ => rfl)⟩

/-- C3 counterexample: with no free port in the scanned range the connect
attempt does not fail before the launch — it launches the subprocess on the
preferred port and responds with success, rather than failing with a
no-port-available error. -/
theorem no_free_port_still_launches :
    choosePortScan (fun _ => false) 4085 = 4085 ∧
    (connect (some "sit") oracleAllBusy [Ev.timer] clearedSlot).spawned =
      [(4085, "cdx-sit2-crs-tidb.int-np.cardx.co.th")] ∧
    (connect (some "sit") oracleAllBusy [Ev.timer] clearedSlot).responses =
      [Resp.connectOk 4085 "st"] :=
  ⟨rfl, rfl, rfl⟩

/-- C2 (amended): the subprocess close and spawn-error handlers, and the
stderr handler when it fires before the response is sent, clear environment
and localPort together; the disconnect handler, however, leaves localPort
unchanged in every case — it clears only the process handle and the
environment when a process was running — so environment and localPort are
not both-null-or-both-non-null at every observable point. -/
theorem teardown_clears_port_but_disconnect_does_not
    (a : Attempt) (code : Int) (m : String) (b : Bool) (s : St) :
    (onClose code a).st.connectedEnv = none ∧
    (onClose code a).st.tunnelLocalPort = none ∧
    (onError a).st.connectedEnv = none ∧
    (onError a).st.tunnelLocalPort = none ∧
    (a.headersSent = false →
       (onStderr m a).st.connectedEnv = none ∧ (onStderr m a).st.tunnelLocalPort = none) ∧
    (disconnectRun b s).st.tunnelLocalPort = s.tunnelLocalPort ∧
    (s.tunnelProcess.isSome = true →
       (disconnectRun b s).st.connectedEnv = none ∧
       (disconnectRun b s).st.tunnelProcess = none) := by
  refine ⟨?_, ?_, ?_, ?_, ?_, ?_, ?_⟩
  · simp [onClose, pushBroadcast, clearedSlot]
  · simp [onClose, pushBroadcast, clearedSlot]
  · unfold onError
    split <;> simp [pushBroadcast, sendResp, clearedSlot]
  · unfold onError
    split <;> simp [pushBroadcast, sendResp, clearedSlot]
  · intro hhs
    unfold onStderr
    rw [if_neg (by rw [hhs]; simp)]
    simp [pushBroadcast, sendResp, clearedSlot]
  · cases h : s.tunnelProcess <;>
      simp [disconnectRun, mkAttempt, pushBroadcast, sendResp, h]
  · intro hp
    cases h : s.tunnelProcess with
    | none => rw [h] at hp; simp at hp
    | some p => simp [disconnectRun, mkAttempt, pushBroadcast, sendResp, h]

/-- C2 witness: the handler-level clearing facts and the disconnect
behavior at a live session with environment sit and port 4085. -/
theorem teardown_clears_port_but_disconnect_does_not_w :
    (onClose 0 (mkAttempt stLive)).st.connectedEnv = none ∧
    (onClose 0 (mkAttempt stLive)).st.tunnelLocalPort = none ∧
    (onError (mkAttempt stLive)).st.connectedEnv = none ∧
    (onError (mkAttempt stLive)).st.tunnelLocalPort = none ∧
    ((mkAttempt stLive).headersSent = false →
       (onStderr "x" (mkAttempt stLive)).st.connectedEnv = none ∧
       (onStderr "x" (mkAttempt stLive)).st.tunnelLocalPort = none) ∧
    (disconnectRun false stLive).st.tunnelLocalPort = stLive.tunnelLocalPort ∧
    (stLive.tunnelProcess.isSome = true →
       (disconnectRun false stLive).st.connectedEnv = none ∧
       (disconnectRun false stLive).st.tunnelProcess = none) :=
  teardown_clears_port_but_disconnect_does_not (mkAttempt stLive) 0 "x" false stLive

/-- C2 counterexample: disconnecting a live session leaves localPort set
while the environment is null, both in the resulting status and in every
snapshot broadcast by the disconnect — environment and localPort are not
both null together on this return to Disconnected. -/
theorem disconnect_leaves_port_set :
    (getCurrentStatus (disconnectRun false stLive).st).env = none ∧
    (getCurrentStatus (disconnectRun false stLive).st).localPort = some 4085 ∧
    envPortAligned (getCurrentStatus (disconnectRun false stLive).st) = false ∧
    ((disconnectRun false stLive).broadcasts.map envPortAligned) = [false, false] :=
  ⟨rfl, rfl, rfl, rfl⟩

/-- C4 (amended): the spawn-error and exit handlers always tear the slot
down and broadcast, even after the response has been sent; the stderr
handler always broadcasts, but tears the slot down only when the response
has not yet been sent — when it fires after the response the slot is left
exactly as it was. -/
theorem handlers_teardown_broadcast (a : Attempt) (m : String) (code : Int) :
    (onError a).st = clearedSlot ∧
    (onError a).broadcasts = a.broadcasts ++ [getCurrentStatus clearedSlot] ∧
    (onClose code a).st = clearedSlot ∧
    (onClose code a).broadcasts = a.broadcasts ++ [getCurrentStatus clearedSlot] ∧
    (onStderr m a).broadcasts.length = a.broadcasts.length + 1 ∧
    (a.headersSent = false → (onStderr m a).st = clearedSlot) ∧
    (a.headersSent = true → (onStderr m a).st = a.st) := by
  refine ⟨?_, ?_, ?_, ?_, ?_, ?_, ?_⟩
  · unfold onError; split <;> simp [pushBroadcast, sendResp]
  · unfold onError; split <;> simp [pushBroadcast, sendResp]
  · simp [onClose, pushBroadcast]
  · simp [onClose, pushBroadcast]
  · unfold onStderr; split <;> simp [pushBroadcast, sendResp]
  · intro hhs
    unfold onStderr
    rw [if_neg (by rw [hhs]; simp)]
    simp [pushBroadcast, sendResp]
  · intro hhs
    unfold onStderr
    rw [if_pos hhs]
    simp [pushBroadcast]

/-- C4 witness: the handler facts at a finished attempt over a live
session. -/
theorem handlers_teardown_broadcast_w :
    (onError attAfterResp).st = clearedSlot ∧
    (onError attAfterResp).broadcasts =
      attAfterResp.broadcasts ++ [getCurrentStatus clearedSlot] ∧
    (onClose 1 attAfterResp).st = clearedSlot ∧
    (onClose 1 attAfterResp).broadcasts =
      attAfterResp.broadcasts ++ [getCurrentStatus clearedSlot] ∧
    (onStderr "late" attAfterResp).broadcasts.length =
      attAfterResp.broadcasts.length + 1 ∧
    (attAfterResp.headersSent = false → (onStderr "late" attAfterResp).st = clearedSlot) ∧
    (attAfterResp.headersSent = true → (onStderr "late" attAfterResp).st = attAfterResp.st) :=
  handlers_teardown_broadcast attAfterResp "late" 1

/-- C4 counterexample: the stderr handler firing after the response has
been sent leaves the slot exactly as it was — the process handle,
environment and local port are not cleared. -/
theorem stderr_after_response_keeps_slot :
    (onStderr "warn" attAfterResp).st = stLive ∧ stLive ≠ clearedSlot :=
  ⟨rfl, by decide⟩

/-- C5 (amended): a connect request with an unrecognized or missing
environment fails with the invalid-environment response and launches
nothing; when no tunnel process is running the slot is untouched and
nothing is broadcast, but when a tunnel process is running it is torn down
(handle, environment and port cleared) and a teardown snapshot broadcast
before the environment is validated. -/
theorem connect_invalid_env (envReq : Option String) (o : ConnOracles)
    (events : List Ev) (s : St) (h : envReq.bind envTunnel = none) :
    (connect envReq o events s).responses = [Resp.invalidEnv] ∧
    (connect envReq o events s).spawned = [] ∧
    (s.tunnelProcess = none → (connect envReq o events s).st = s ∧
       (connect envReq o events s).broadcasts = []) ∧
    (s.tunnelProcess.isSome = true → (connect envReq o events s).st = clearedSlot ∧
       (connect envReq o events s).broadcasts = [getCurrentStatus clearedSlot]) := by
  cases envReq with
  | none =>
    cases hp : s.tunnelProcess <;>
      simp [connect, teardownExisting, mkAttempt, pushBroadcast, sendResp, hp]
  | some env =>
    have henv : envTunnel env = none := by simpa using h
    cases hp : s.tunnelProcess <;>
      simp [connect, henv, teardownExisting, mkAttempt, pushBroadcast, sendResp, hp]

/-- C5 witness: an unrecognized environment over an empty slot changes
nothing and responds with the invalid-environment error. -/
theorem connect_invalid_env_w :
    (some "bogus").bind envTunnel = none ∧
    ((connect (some "bogus") oracleAllFree [] clearedSlot).responses = [Resp.invalidEnv] ∧
     (connect (some "bogus") oracleAllFree [] clearedSlot).spawned = [] ∧
     (clearedSlot.tunnelProcess = none →
        (connect (some "bogus") oracleAllFree [] clearedSlot).st = clearedSlot ∧
        (connect (some "bogus") oracleAllFree [] clearedSlot).broadcasts = []) ∧
     (clearedSlot.tunnelProcess.isSome = true →
        (connect (some "bogus") oracleAllFree [] clearedSlot).st = clearedSlot ∧
        (connect (some "bogus") oracleAllFree [] clearedSlot).broadcasts =
          [getCurrentStatus clearedSlot])) :=
  ⟨by decide, connect_invalid_env (some "bogus") oracleAllFree [] clearedSlot (by decide)⟩

/-- C5 counterexample: with a live tunnel, a connect request with an
unrecognized environment tears the existing session down and broadcasts a
teardown snapshot before failing — the existing session is not left as it
was and a snapshot is broadcast. -/
theorem invalid_env_kills_live_tunnel :
    (connect (some "bogus") oracleAllFree [] stLive).st = clearedSlot ∧
    stLive ≠ clearedSlot ∧
    (connect (some "bogus") oracleAllFree [] stLive).broadcasts.length = 1 ∧
    (connect (some "bogus") oracleAllFree [] stLive).responses = [Resp.invalidEnv] :=
  ⟨rfl, by decide, rfl, rfl⟩

/-- C10 witness: the normalization facts and the completeness check at a
concrete accepted query and a config with no host but truthy port and
user. -/
theorem host_check_unreachable_w :
    isSafeSelectQuery qSafe = true ∧
    (normalizeHost (some "LOCALHOST") ≠ "" ∧
     normalizeHost none = "127.0.0.1" ∧
     normalizeHost (some "") = "127.0.0.1" ∧
     normalizeHost (some "   ") = "127.0.0.1" ∧
     normalizeHost (some "LocalHost") = "127.0.0.1" ∧
     normalizeHost (some "::1") = "127.0.0.1" ∧
     ((executeSql (some qSafe) (some cfgNoHost) oracleProbeFail).1 =
        SqlResp.incompleteConfig ↔
      (truthyPort cfgNoHost.port = false ∨ truthyStr cfgNoHost.user = false))) :=
  ⟨by decide,
   host_check_unreachable (some "LOCALHOST") qSafe cfgNoHost oracleProbeFail (by decide)⟩

end Server
